import Mathlib

/-!
Shallow embedding of the `ontopy` library (files `sparql.py` and `ontopy.py`).

The embedding models:
* `format_literal` / `format_tuple` — SPARQL term rendering (`sparql.py`).
* `SelectQuery` — the incremental query builder: a record mirroring the
  `_q` dictionary, with the `return_clone`-wrapped mutating methods
  (`select`, `distinct`, `where`, `optional`, `__getitem__`) modelled as
  functions that first deep-copy the receiver and then update the copy.
* `__str__` — serialization to SPARQL text.  Fallible paths (empty
  `where` clause, empty string literals) return `Except PyError`.
  Serializing an empty `where` evaluates the *undefined* name
  `MalformattedQueryException`, which in Python raises `NameError`.
* `RDFClassManager` — the manager from `ontopy.py`: the seeded base
  query, the subject-inserting `where`, integer indexing through the
  endpoint (`run_query()[k]` with Python list-index semantics), and the
  `__getattr__` pass-through with Python attribute-access semantics.
* `RDFClass.get_properties` — the language-tag filter over fetched
  triples, with dict-update ("last write wins") semantics.

Machine-level details that matter are modelled explicitly: Python list
indexing (negative indices wrap once, out of range raises `IndexError`),
`x or 0` on an optional int, and `" ".join`.
-/

namespace Ontopy

/-- Python exception kinds raised by the embedded code paths. -/
inductive PyError where
  | IndexError
  | TypeError
  | ValueError
  | NameError
  | AttributeError
  deriving DecidableEq

/-- A term of a triple pattern: the reserved type predicate `a`
(`APredicate`), an IRI (`rdflib.term.URIRef`), an `RDFClass` instance
(duck-typed by its `resource_uri` attribute), or a plain string
(variable or literal). -/
inductive Term where
  | typeMarker
  | iri (s : String)
  | handle (resource_uri : String)
  | str (s : String)
  deriving DecidableEq

/-- `format_literal` from `sparql.py`.  A plain string is quoted when its
first character is not `?`; evaluating `o[0]` on an empty string raises
`IndexError`. -/
def format_literal (o : Term) : Except PyError String :=
  match o with
  | .typeMarker => .ok "a"
  | .iri s => .ok ("<" ++ s ++ ">")
  | .handle u => .ok ("<" ++ u ++ ">")
  | .str s =>
      if s = "" then .error .IndexError
      else if String.front s = '?' then .ok s
      else .ok ("\"" ++ s ++ "\"")

/-- `format_tuple` from `sparql.py`: `"%s %s %s"` over the three terms. -/
def format_tuple (tp : Term × Term × Term) : Except PyError String := do
  let s ← format_literal tp.1
  let p ← format_literal tp.2.1
  let o ← format_literal tp.2.2
  pure (s ++ " " ++ p ++ " " ++ o)

/-- Python's `sep.join(tokens)`. -/
def joinSep (sep : String) : List String → String
  | [] => ""
  | [x] => x
  | x :: y :: rest => x ++ sep ++ joinSep sep (y :: rest)

/-- The `_q` dictionary of `SelectQuery` (`sparql.py`): keys `select`,
`distinct`, `where`, `optional`, `filter`, `order_by`, `limit`,
`offset`. -/
structure SelectQuery where
  select : List String
  distinct : Bool
  «where» : List (Term × Term × Term)
  optional : List (Term × Term × Term)
  filter : List String
  order_by : List String
  limit : Option Int
  offset : Option Int
  deriving DecidableEq

/-- `SelectQuery._empty_query`. -/
def empty_query : SelectQuery :=
  { select := [], distinct := false, «where» := [], optional := [],
    filter := [], order_by := [], limit := none, offset := none }

/-- `SelectQuery.__deepcopy__`: recreates the query from a deep copy of
its `_q` dictionary, so the clone shares no mutable state with the
original. -/
def deepcopySQ (q : SelectQuery) : SelectQuery :=
  { select := q.select, distinct := q.distinct, «where» := q.«where»,
    optional := q.optional, filter := q.filter, order_by := q.order_by,
    limit := q.limit, offset := q.offset }

/-- The `return_clone` decorator: clone the receiver, mutate the clone,
return the clone. -/
def return_clone (method : SelectQuery → SelectQuery) (q : SelectQuery) : SelectQuery :=
  method (deepcopySQ q)

/-- `SelectQuery.select` (single-variable form). -/
def selectQ (q : SelectQuery) (v : String) : SelectQuery :=
  return_clone (fun cl => { cl with select := cl.select ++ [v] }) q

/-- `SelectQuery.distinct`. -/
def distinctQ (q : SelectQuery) : SelectQuery :=
  return_clone (fun cl => { cl with distinct := true }) q

/-- `SelectQuery.where`. -/
def whereQ (q : SelectQuery) (subj pred obj : Term) : SelectQuery :=
  return_clone (fun cl => { cl with «where» := cl.«where» ++ [(subj, pred, obj)] }) q

/-- `SelectQuery.optional`. -/
def optionalQ (q : SelectQuery) (subj pred obj : Term) : SelectQuery :=
  return_clone (fun cl => { cl with optional := cl.optional ++ [(subj, pred, obj)] }) q

/-- A key passed to `SelectQuery.__getitem__`: a Python int, a slice, or
anything else (which raises `TypeError`). -/
inductive PyKey where
  | int (n : Int)
  | slice (start stop step : Option Int)
  | other
  deriving DecidableEq

/-- `SelectQuery.__getitem__` (wrapped in `return_clone`): an int sets
`offset := k`, `limit := 1`; a slice rejects a step other than 1 with
`ValueError`, computes `offset = k.start or 0`, records the offset only
when it is positive, and sets `limit = k.stop - offset` when a stop is
given; any other key raises `TypeError`.  No bound is checked for
sign. -/
def getitemQ (q : SelectQuery) (k : PyKey) : Except PyError SelectQuery :=
  let cl := deepcopySQ q
  match k with
  | .int n => .ok { cl with offset := some n, limit := some 1 }
  | .slice start stop step =>
      if step ≠ none ∧ step ≠ some 1 then .error .ValueError
      else
        let offset := start.getD 0
        let cl1 := if offset > 0 then { cl with offset := some offset } else cl
        match stop with
        | some s => .ok { cl1 with limit := some (s - offset) }
        | none => .ok cl1
  | .other => .error .TypeError

/-- The tokens of `SelectQuery.__str__` up to the closing brace of the
`where` block: `select [distinct] <vars|*> where { ... [optional { ... }] }`.
An empty `where` list reaches `raise MalformattedQueryException(...)`;
that name is not defined anywhere in the source, so evaluating it raises
`NameError`. -/
def coreTokens (q : SelectQuery) : Except PyError (List String) :=
  let head := ["select"] ++ (if q.distinct then ["distinct"] else []) ++
    (if q.select = [] then ["*"] else q.select)
  if q.«where» = [] then .error .NameError
  else
    match q.«where».mapM format_tuple with
    | .error e => .error e
    | .ok wparts =>
      match (if q.optional = [] then Except.ok ([] : List String)
             else
               match q.optional.mapM format_tuple with
               | .error e => .error e
               | .ok ops => .ok ["optional", "\x7b", joinSep " . " ops, "\x7d"]) with
      | .error e => .error e
      | .ok oparts =>
        .ok (head ++ ["where", "\x7b", joinSep " . " wparts] ++ oparts ++ ["\x7d"])

/-- The `order by` tokens of `SelectQuery.__str__`. -/
def orderTokens (q : SelectQuery) : List String :=
  if q.order_by = [] then [] else ["order by", joinSep ", " q.order_by]

/-- The `offset <n>` tokens of `SelectQuery.__str__`. -/
def offsetTokens (q : SelectQuery) : List String :=
  match q.offset with | some n => ["offset", toString n] | none => []

/-- The `limit <n>` tokens of `SelectQuery.__str__`. -/
def limitTokens (q : SelectQuery) : List String :=
  match q.limit with | some n => ["limit", toString n] | none => []

/-- The trailing tokens of `SelectQuery.__str__`: `order by` part, then
`offset <n>`, then `limit <n>`. -/
def tailTokens (q : SelectQuery) : List String :=
  orderTokens q ++ offsetTokens q ++ limitTokens q

/-- `SelectQuery.__str__`: join all tokens with single spaces. -/
def strQ (q : SelectQuery) : Except PyError String :=
  match coreTokens q with
  | .error e => .error e
  | .ok core => .ok (joinSep " " (core ++ tailTokens q))

/-- The class-level data of an `RDFClass` subclass that the manager
consumes: its `class_uri`. -/
structure RDFClassK where
  class_uri : String
  deriving DecidableEq

/-- An `RDFClass` instance: a resource handle identified by
`resource_uri`, belonging to one kind. -/
structure RDFClassInst where
  cls : RDFClassK
  resource_uri : String
  deriving DecidableEq

/-- `RDFClassManager`: a resource kind plus the wrapped query. -/
structure RDFClassManager where
  cls : RDFClassK
  query : SelectQuery
  deriving DecidableEq

/-- `RDFClassManager.__init__` without an explicit query:
`SelectQuery().select("?resource").where("?resource", a, cls.class_uri)`. -/
def managerInit (cls : RDFClassK) : RDFClassManager :=
  ⟨cls, whereQ (selectQ empty_query "?resource")
      (Term.str "?resource") Term.typeMarker (Term.iri cls.class_uri)⟩

/-- `RDFClassManager.where`: inserts `?resource` as the subject and wraps
the extended query in a new manager for the same class. -/
def managerWhere (M : RDFClassManager) (predicate object : Term) : RDFClassManager :=
  ⟨M.cls, whereQ M.query (Term.str "?resource") predicate object⟩

/-- The kind used by the doctest scenario:
`Band` with `class_uri = "http://dbpedia.org/ontology/Band"`. -/
def bandK : RDFClassK := ⟨"http://dbpedia.org/ontology/Band"⟩

/-! ### Helper lemmas about serialization tokens -/

theorem joinSep_append (sep : String) (xs ys : List String) (hx : xs ≠ []) (hy : ys ≠ []) :
    joinSep sep (xs ++ ys) = joinSep sep xs ++ sep ++ joinSep sep ys := by
  induction xs with
  | nil => exact absurd rfl hx
  | cons x xs ih =>
    cases xs with
    | nil =>
      cases ys with
      | nil => exact absurd rfl hy
      | cons y ys => simp [joinSep]
    | cons x2 xs2 =>
      have h2 := ih (by simp)
      calc joinSep sep ((x :: x2 :: xs2) ++ ys)
          = x ++ sep ++ joinSep sep (x2 :: (xs2 ++ ys)) := rfl
        _ = x ++ sep ++ (joinSep sep (x2 :: xs2) ++ sep ++ joinSep sep ys) := by
            rw [List.cons_append] at h2; rw [h2]
        _ = joinSep sep (x :: x2 :: xs2) ++ sep ++ joinSep sep ys := by
            show x ++ sep ++ (joinSep sep (x2 :: xs2) ++ sep ++ joinSep sep ys)
              = x ++ sep ++ joinSep sep (x2 :: xs2) ++ sep ++ joinSep sep ys
            rw [String.append_assoc (x ++ sep), String.append_assoc (x ++ sep)]

theorem coreTokens_ne_nil (q : SelectQuery) (core : List String)
    (h : coreTokens q = .ok core) : core ≠ [] := by
  unfold coreTokens at h
  by_cases hw : q.«where» = []
  · simp [hw] at h
  · simp only [hw, if_false] at h
    cases hwp : q.«where».mapM format_tuple with
    | error e => rw [hwp] at h; simp at h
    | ok wparts =>
      rw [hwp] at h
      by_cases ho : q.optional = []
      · simp only [ho, if_true] at h
        injection h with h2
        intro hnil
        rw [hnil] at h2
        simp at h2
      · simp only [ho, if_false] at h
        cases hop : q.optional.mapM format_tuple with
        | error e => rw [hop] at h; simp at h
        | ok ops =>
          rw [hop] at h
          injection h with h2
          intro hnil
          rw [hnil] at h2
          simp at h2

theorem strQ_eq_ok (q : SelectQuery) (t : String) (h : strQ q = .ok t) :
    ∃ core, coreTokens q = .ok core ∧ t = joinSep " " (core ++ tailTokens q) := by
  unfold strQ at h
  cases hc : coreTokens q with
  | error e => rw [hc] at h; simp at h
  | ok core =>
    rw [hc] at h
    injection h with h2
    exact ⟨core, rfl, h2.symm⟩

theorem strQ_set_offset_limit (q : SelectQuery) (core : List String)
    (hc : coreTokens q = .ok core) (o l : Option Int) :
    strQ { q with offset := o, limit := l } =
      Except.ok (joinSep " " (core ++ (orderTokens q ++
        (match o with | some n => ["offset", toString n] | none => []) ++
        (match l with | some n => ["limit", toString n] | none => [])))) := by
  unfold strQ
  rw [show coreTokens { q with offset := o, limit := l } = Except.ok core from hc]
  rfl

/-! ### Claims -/

/-- C1: `Q.where(p, o)` on a manager appends exactly one where pattern
`(?resource, p, o)` to an independent copy of the expression: the
derived expression's where sequence is `Q`'s plus that one pattern (one
more element), every other clause sequence and flag is an equal,
independently owned copy, and the resource kind is preserved.  Because
`return_clone` mutates only a `deepcopy` of the receiver (which
reproduces the value, as `deepcopySQ q = q` states), the original
expression is not mutated by the call. -/
theorem c1_where_nondestructive (M : RDFClassManager) (p o : Term) :
    (managerWhere M p o).query.«where» =
        M.query.«where» ++ [(Term.str "?resource", p, o)] ∧
    (managerWhere M p o).query.«where».length = M.query.«where».length + 1 ∧
    (managerWhere M p o).cls = M.cls ∧
    (managerWhere M p o).query.select = M.query.select ∧
    (managerWhere M p o).query.distinct = M.query.distinct ∧
    (managerWhere M p o).query.optional = M.query.optional ∧
    (managerWhere M p o).query.order_by = M.query.order_by ∧
    (managerWhere M p o).query.limit = M.query.limit ∧
    (managerWhere M p o).query.offset = M.query.offset ∧
    deepcopySQ M.query = M.query := by
  refine ⟨rfl, ?_, rfl, rfl, rfl, rfl, rfl, rfl, rfl, rfl⟩
  simp [managerWhere, whereQ, return_clone, deepcopySQ]

/-- C6: serializing a query whose `where` sequence is empty produces no
query text; the code reaches `raise MalformattedQueryException(...)`,
but that exception class is defined nowhere in the source, so Python
raises `NameError` while evaluating the undefined name instead of a
dedicated empty-where error. -/
theorem c6_empty_where_name_error :
    strQ empty_query = Except.error PyError.NameError ∧
    ∀ (sel : List String) (dis : Bool) (opt : List (Term × Term × Term))
      (fil ob : List String) (lim off : Option Int),
      strQ ⟨sel, dis, [], opt, fil, ob, lim, off⟩ = Except.error PyError.NameError := by
  refine ⟨rfl, fun sel dis opt fil ob lim off => ?_⟩
  unfold strQ coreTokens
  simp

/-- A concrete query with one where pattern, used as the slicing
counterexample receiver. -/
def c7q : SelectQuery := (managerInit bandK).query

/-- C7 counterexample: negative bounds are not rejected.  Slicing with
the range `[-5, 5)` raises nothing: it returns a new query with
`limit = 5 - (-5) = 10` and no offset, and an integer key `-1` is also
accepted, storing `offset = -1`.  The claim requires
`InvalidRangeError` for negative bounds. -/
theorem c7_counterexample :
    getitemQ c7q (PyKey.slice (some (-5)) (some 5) none) =
      Except.ok { c7q with limit := some 10 } ∧
    getitemQ c7q (PyKey.int (-1)) =
      Except.ok { c7q with offset := some (-1), limit := some 1 } := by
  exact ⟨rfl, rfl⟩

/-- C7 amended: a slice step other than 1 is rejected with `ValueError`
(the spec's `UnsupportedStepError`) and a key that is neither an int nor
a slice is rejected with `TypeError`; in both cases no new expression is
produced (the original is unchanged and nothing can be executed).
Negative integer bounds, however, are accepted: a non-positive start
contributes no offset clause and the limit becomes `stop - start`. -/
theorem c7_slice_errors :
    (∀ (q : SelectQuery) (start stop : Option Int) (s : Int), s ≠ 1 →
      getitemQ q (PyKey.slice start stop (some s)) = Except.error PyError.ValueError) ∧
    (∀ q : SelectQuery, getitemQ q PyKey.other = Except.error PyError.TypeError) ∧
    (∀ (q : SelectQuery) (n m : Int), n ≤ 0 →
      getitemQ q (PyKey.slice (some n) (some m) none) =
        Except.ok { q with limit := some (m - n) }) := by
  refine ⟨fun q start stop s hs => ?_, fun q => rfl, fun q n m hn => ?_⟩
  · simp [getitemQ, hs]
  · have hng : ¬ ((n : Int) > 0) := by omega
    simp [getitemQ, hng, deepcopySQ]

/-- C7 witness: the spec's own scenario `withSlice(0, 5, step=2)` is
rejected with `ValueError`, and the negative-bound slice `[-2, 3)` is
accepted with `limit = 5`. -/
theorem c7_slice_errors_witness :
    getitemQ c7q (PyKey.slice (some 0) (some 5) (some 2)) = Except.error PyError.ValueError ∧
    getitemQ c7q (PyKey.slice (some (-2)) (some 3) none) =
      Except.ok { c7q with limit := some 5 } := by
  constructor
  · exact c7_slice_errors.1 c7q (some 0) (some 5) 2 (by decide)
  · have h := c7_slice_errors.2.2 c7q (-2) 3 (by decide)
    simpa using h

/-- A query with a preexisting offset and limit, reachable by slicing
the base `Band` query with `[7:12]`. -/
def c3q : SelectQuery := { c7q with offset := some 7, limit := some 5 }

/-- C3 counterexample: slicing does not clear a preexisting offset.
`c3q` (reachable as `c7q[7:12]`) has a non-empty where clause; slicing
it with the half-open range `[0, 5)` keeps `offset = 7`, so the
serialized text contains an offset clause, contradicting the claim that
`[0, 5)` always yields a text with no offset clause. -/
theorem c3_counterexample :
    getitemQ c7q (PyKey.slice (some 7) (some 12) none) = Except.ok c3q ∧
    getitemQ c3q (PyKey.slice (some 0) (some 5) none) = Except.ok c3q ∧
    c3q.offset = some 7 ∧
    strQ c3q = Except.ok
      "select ?resource where \x7b ?resource a <http://dbpedia.org/ontology/Band> \x7d offset 7 limit 5" := by
  exact ⟨rfl, rfl, rfl, rfl⟩

/-- C3 amended: for every query with no previously recorded offset or
limit that serializes successfully (so its where clause is non-empty and
all terms render), slicing with `[0, 5)` yields a query with no offset
whose text ends in `limit 5`; `[1, 6)` yields a text ending in
`offset 1 limit 5`; `[3, None)` yields a query with no limit whose text
ends in `offset 3`.  (A preexisting offset or limit survives slicing,
as the counterexample shows.) -/
theorem c3_slice_laws (q : SelectQuery) (t : String)
    (hoff : q.offset = none) (hlim : q.limit = none)
    (hser : strQ q = Except.ok t) :
    (getitemQ q (PyKey.slice (some 0) (some 5) none) =
        Except.ok { q with offset := none, limit := some 5 } ∧
      strQ { q with offset := none, limit := some 5 } = Except.ok (t ++ " limit 5")) ∧
    (getitemQ q (PyKey.slice (some 1) (some 6) none) =
        Except.ok { q with offset := some 1, limit := some 5 } ∧
      strQ { q with offset := some 1, limit := some 5 } =
        Except.ok (t ++ " offset 1 limit 5")) ∧
    (getitemQ q (PyKey.slice (some 3) none none) =
        Except.ok { q with offset := some 3, limit := none } ∧
      strQ { q with offset := some 3, limit := none } = Except.ok (t ++ " offset 3")) := by
  obtain ⟨core, hc, ht⟩ := strQ_eq_ok q t hser
  have hcne := coreTokens_ne_nil q core hc
  have htail : tailTokens q = orderTokens q := by
    unfold tailTokens offsetTokens limitTokens
    rw [hoff, hlim]
    simp
  rw [htail] at ht
  have hxs : core ++ orderTokens q ≠ [] := fun h => hcne (List.append_eq_nil.mp h).1
  refine ⟨⟨?_, ?_⟩, ⟨?_, ?_⟩, ⟨?_, ?_⟩⟩
  · simp [getitemQ, deepcopySQ, hoff]
  · rw [strQ_set_offset_limit q core hc none (some 5), ht]
    have hsh : core ++ (orderTokens q ++ [] ++ ["limit", toString (5 : Int)]) =
        (core ++ orderTokens q) ++ ["limit", "5"] := by
      rw [List.append_nil, ← List.append_assoc]
      rfl
    rw [hsh, joinSep_append " " (core ++ orderTokens q) ["limit", "5"] hxs (by simp),
      String.append_assoc]
    rfl
  · simp [getitemQ, deepcopySQ, hoff]
  · rw [strQ_set_offset_limit q core hc (some 1) (some 5), ht]
    have hsh : core ++ (orderTokens q ++ ["offset", toString (1 : Int)] ++
          ["limit", toString (5 : Int)]) =
        (core ++ orderTokens q) ++ ["offset", "1", "limit", "5"] := by
      rw [List.append_assoc (orderTokens q), ← List.append_assoc core]
      rfl
    rw [hsh, joinSep_append " " (core ++ orderTokens q) ["offset", "1", "limit", "5"] hxs
      (by simp), String.append_assoc]
    rfl
  · simp [getitemQ, deepcopySQ, hlim]
  · rw [strQ_set_offset_limit q core hc (some 3) none, ht]
    have hsh : core ++ (orderTokens q ++ ["offset", toString (3 : Int)] ++ []) =
        (core ++ orderTokens q) ++ ["offset", "3"] := by
      rw [List.append_nil, ← List.append_assoc]
      rfl
    rw [hsh, joinSep_append " " (core ++ orderTokens q) ["offset", "3"] hxs (by simp),
      String.append_assoc]
    rfl

/-- C3 witness: the three slice laws instantiated on the base `Band`
query, whose offset and limit are unset. -/
theorem c3_slice_laws_witness :
    strQ { c7q with offset := none, limit := some 5 } =
      Except.ok ("select ?resource where \x7b ?resource a <http://dbpedia.org/ontology/Band> \x7d"
        ++ " limit 5") ∧
    strQ { c7q with offset := some 1, limit := some 5 } =
      Except.ok ("select ?resource where \x7b ?resource a <http://dbpedia.org/ontology/Band> \x7d"
        ++ " offset 1 limit 5") ∧
    strQ { c7q with offset := some 3, limit := none } =
      Except.ok ("select ?resource where \x7b ?resource a <http://dbpedia.org/ontology/Band> \x7d"
        ++ " offset 3") := by
  have h := c3_slice_laws c7q
    "select ?resource where \x7b ?resource a <http://dbpedia.org/ontology/Band> \x7d"
    rfl rfl rfl
  exact ⟨h.1.2, h.2.1.2, h.2.2.2⟩

/-- C8: term rendering — the type marker renders as the bare token `a`,
an IRI as `<iri>`, a resource handle as `<handle.resource_uri>`, a
non-empty string not starting with `?` as a double-quoted string, and a
string starting with `?` bare, as a variable. -/
theorem c8_term_rendering :
    format_literal Term.typeMarker = Except.ok "a" ∧
    (∀ s : String, format_literal (Term.iri s) = Except.ok ("<" ++ s ++ ">")) ∧
    (∀ u : String, format_literal (Term.handle u) = Except.ok ("<" ++ u ++ ">")) ∧
    (∀ s : String, s ≠ "" → String.front s ≠ '?' →
      format_literal (Term.str s) = Except.ok ("\"" ++ s ++ "\"")) ∧
    (∀ s : String, s ≠ "" → String.front s = '?' →
      format_literal (Term.str s) = Except.ok s) := by
  refine ⟨rfl, fun s => rfl, fun u => rfl, fun s hne hq => ?_, fun s hne hq => ?_⟩
  · simp [format_literal, hne, hq]
  · simp [format_literal, hne, hq]

/-- C8 witness: a literal renders quoted, a variable renders bare. -/
theorem c8_term_rendering_witness :
    format_literal (Term.str "Kraftwerk") = Except.ok "\"Kraftwerk\"" ∧
    format_literal (Term.str "?resource") = Except.ok "?resource" := by
  constructor
  · exact c8_term_rendering.2.2.2.1 "Kraftwerk" (by decide) (by decide)
  · exact c8_term_rendering.2.2.2.2 "?resource" (by decide) (by decide)

/-- C10: rendering a string term is not total — the empty plain string
makes `format_literal` evaluate `o[0]`, raising `IndexError`, while
every non-empty string term renders to some text. -/
theorem c10_empty_string_not_total :
    format_literal (Term.str "") = Except.error PyError.IndexError ∧
    ∀ s : String, s ≠ "" → ∃ u : String, format_literal (Term.str s) = Except.ok u := by
  refine ⟨rfl, fun s hne => ?_⟩
  by_cases hq : String.front s = '?'
  · exact ⟨s, by simp [format_literal, hne, hq]⟩
  · exact ⟨"\"" ++ s ++ "\"", by simp [format_literal, hne, hq]⟩

/-- C10 witness: the empty string raises, a sample non-empty string
renders. -/
theorem c10_empty_string_not_total_witness :
    format_literal (Term.str "") = Except.error PyError.IndexError ∧
    ∃ u : String, format_literal (Term.str "x") = Except.ok u :=
  ⟨c10_empty_string_not_total.1, c10_empty_string_not_total.2 "x" (by decide)⟩

/-! ### Property materialization (`RDFClass.get_properties`) -/

/-- An RDF object node as `get_properties` sees it: an optional language
tag (`None` for IRIs and untagged literals) and the plain value that
would be stored (`obj.toPython()` or the object itself). -/
structure RDFNode where
  language : Option String
  value : String
  deriving DecidableEq

/-- Python dict update `d[k] = v`: replace the value of an existing key
in place, else append the new pair. -/
def dictSet (d : List (String × String)) (k v : String) : List (String × String) :=
  match d with
  | [] => [(k, v)]
  | (k0, v0) :: rest => if k0 = k then (k, v) :: rest else (k0, v0) :: dictSet rest k v

/-- Python dict lookup `d[k]` (as an option). -/
def dictGet (d : List (String × String)) (k : String) : Option String :=
  match d with
  | [] => none
  | (k0, v0) :: rest => if k0 = k then some v0 else dictGet rest k

/-- One iteration of the `get_properties` loop: store
`properties[pred] = obj.value` iff `getattr(obj, "language", None) ==
self.lang`. -/
def gpStep (lang : String) (props : List (String × String))
    (t : String × String × RDFNode) : List (String × String) :=
  if t.2.2.language = some lang then dictSet props t.2.1 t.2.2.value else props

/-- `RDFClass.get_properties`: fold the language filter over the fetched
triples in document order, starting from an empty dict. -/
def get_properties (lang : String) (graph : List (String × String × RDFNode)) :
    List (String × String) :=
  graph.foldl (gpStep lang) []

theorem dictGet_dictSet_self (d : List (String × String)) (k v : String) :
    dictGet (dictSet d k v) k = some v := by
  induction d with
  | nil => simp [dictSet, dictGet]
  | cons hd rest ih =>
    obtain ⟨k0, v0⟩ := hd
    by_cases h : k0 = k
    · simp [dictSet, dictGet, h]
    · simp [dictSet, dictGet, h, ih]

theorem dictGet_dictSet_ne (d : List (String × String)) (k0 v k : String) (h : k0 ≠ k) :
    dictGet (dictSet d k0 v) k = dictGet d k := by
  induction d with
  | nil => simp [dictSet, dictGet, h]
  | cons hd rest ih =>
    obtain ⟨k1, v1⟩ := hd
    by_cases h1 : k1 = k0
    · subst h1
      simp [dictSet, dictGet, h]
    · by_cases h2 : k1 = k
      · simp [dictSet, dictGet, h1, h2, Ne.symm h]
      · simp [dictSet, dictGet, h1, h2, ih]

theorem gp_foldl_preserves_isSome (lang : String) (g : List (String × String × RDFNode))
    (acc : List (String × String)) (p : String) (h : (dictGet acc p).isSome = true) :
    (dictGet (g.foldl (gpStep lang) acc) p).isSome = true := by
  induction g generalizing acc with
  | nil => simpa using h
  | cons hd rest ih =>
    refine ih (gpStep lang acc hd) ?_
    unfold gpStep
    by_cases hl : hd.2.2.language = some lang
    · rw [if_pos hl]
      by_cases hk : hd.2.1 = p
      · rw [hk, dictGet_dictSet_self]; rfl
      · rw [dictGet_dictSet_ne _ _ _ _ hk]; exact h
    · rw [if_neg hl]; exact h

theorem gp_foldl_mem_isSome (lang : String) (g : List (String × String × RDFNode)) :
    ∀ (acc : List (String × String)) (s p : String) (o : RDFNode),
      (s, p, o) ∈ g → o.language = some lang →
      (dictGet (g.foldl (gpStep lang) acc) p).isSome = true := by
  induction g with
  | nil => intro acc s p o h; cases h
  | cons hd rest ih =>
    intro acc s p o hmem hl
    rw [List.foldl_cons]
    rcases List.mem_cons.mp hmem with heq | hmem2
    · subst heq
      refine gp_foldl_preserves_isSome lang rest _ p ?_
      simp [gpStep, hl, dictGet_dictSet_self]
    · exact ih (gpStep lang acc hd) s p o hmem2 hl

theorem gp_foldl_absent_none (lang : String) (g : List (String × String × RDFNode))
    (acc : List (String × String)) (p : String) (hacc : dictGet acc p = none)
    (habs : ∀ s o, (s, p, o) ∈ g → o.language ≠ some lang) :
    dictGet (g.foldl (gpStep lang) acc) p = none := by
  induction g generalizing acc with
  | nil => simpa using hacc
  | cons hd rest ih =>
    obtain ⟨s0, p0, o0⟩ := hd
    refine ih (gpStep lang acc (s0, p0, o0)) ?_ (fun s o hm => habs s o (List.mem_cons_of_mem _ hm))
    unfold gpStep
    by_cases hl : o0.language = some lang
    · have hp : p0 ≠ p := by
        intro hpp
        subst hpp
        exact habs s0 o0 (List.mem_cons_self _ _) hl
      rw [if_pos hl, dictGet_dictSet_ne _ _ _ _ hp]
      exact hacc
    · rw [if_neg hl]; exact hacc

/-- A fetched document with a single triple whose object carries no
language tag (e.g. an IRI object or an untagged literal). -/
def c5doc : List (String × String × RDFNode) :=
  [("http://x/s", "http://x/p", ⟨none, "plain"⟩)]

/-- C5 counterexample: with the default language tag `"en"`, a triple
whose object carries no language tag is *not* stored — the property
cache stays empty and the predicate is absent — whereas the claim says
the mapping would be stored. -/
theorem c5_counterexample :
    get_properties "en" c5doc = [] ∧
    dictGet (get_properties "en" c5doc) "http://x/p" = none := ⟨rfl, rfl⟩

/-- C5 amended: when a handle materializes its properties, only triples
whose object carries exactly the handle's configured language tag are
stored (`predicate -> plain value`); objects with no language tag at
all, like objects with a non-matching tag, are not stored. -/
theorem c5_language_filter (lang : String) (graph : List (String × String × RDFNode)) :
    (∀ s p o, (s, p, o) ∈ graph → o.language = some lang →
      (dictGet (get_properties lang graph) p).isSome = true) ∧
    (∀ p, (∀ s o, (s, p, o) ∈ graph → o.language ≠ some lang) →
      dictGet (get_properties lang graph) p = none) := by
  constructor
  · intro s p o hmem hl
    exact gp_foldl_mem_isSome lang graph [] s p o hmem hl
  · intro p habs
    exact gp_foldl_absent_none lang graph [] p rfl habs

/-- A document with one `"en"`-tagged triple and one `"de"`-tagged
triple. -/
def c5doc2 : List (String × String × RDFNode) :=
  [("http://x/s", "http://x/p", ⟨some "en", "tagged"⟩),
   ("http://x/s", "http://x/q", ⟨some "de", "german"⟩)]

/-- C5 witness: the `"en"`-tagged predicate is stored, the `"de"`-tagged
one is not. -/
theorem c5_language_filter_witness :
    (dictGet (get_properties "en" c5doc2) "http://x/p").isSome = true ∧
    dictGet (get_properties "en" c5doc2) "http://x/q" = none := by
  constructor
  · exact (c5_language_filter "en" c5doc2).1 "http://x/s" "http://x/p"
      ⟨some "en", "tagged"⟩ (by simp [c5doc2]) rfl
  · refine (c5_language_filter "en" c5doc2).2 "http://x/q" ?_
    intro s o hmem
    simp only [c5doc2, List.mem_cons, List.not_mem_nil, or_false] at hmem
    rcases hmem with h | h
    · have h2 : "http://x/q" = "http://x/p" :=
        congrArg (fun x : String × String × RDFNode => x.2.1) h
      exact absurd h2 (by decide)
    · have h2 : o = ⟨some "de", "german"⟩ :=
        congrArg (fun x : String × String × RDFNode => x.2.2) h
      rw [h2]
      decide

/-- C2: the base query seeded for a kind has exactly one where pattern,
`(?resource, a, K.class_uri)`, and for the kind `Band` it serializes to
exactly the doctest text. -/
theorem c2_base_query :
    (∀ K : RDFClassK, (managerInit K).query.«where» =
      [(Term.str "?resource", Term.typeMarker, Term.iri K.class_uri)]) ∧
    strQ (managerInit bandK).query =
      Except.ok "select ?resource where \x7b ?resource a <http://dbpedia.org/ontology/Band> \x7d" := by
  exact ⟨fun K => rfl, rfl⟩

/-! ### Terminal indexing through the endpoint (`RDFClassManager.__getitem__`) -/

/-- `RDFClassManager.run_query`: serialize the wrapped query and hand the
text to the endpoint, which returns the full list of URI strings.  The
endpoint is abstracted as a function from query text to result rows. -/
def run_query (E : String → List String) (M : RDFClassManager) :
    Except PyError (List String) :=
  match strQ M.query with
  | .error e => .error e
  | .ok text => .ok (E text)

/-- Python list indexing `l[n]`: a negative index counts from the end
(wrapping once); an index outside `[0, len)` after adjustment raises
`IndexError`. -/
def pyIndex (l : List String) (n : Int) : Except PyError String :=
  let i := if n < 0 then n + l.length else n
  if i < 0 then .error .IndexError
  else
    match l.get? i.toNat with
    | some x => .ok x
    | none => .error .IndexError

/-- `RDFClassManager.__getitem__` with an int key: run the *unsliced*
query, index the full result list Python-style, and wrap the URI as an
instance of the manager's class. -/
def managerGetitemInt (E : String → List String) (M : RDFClassManager) (n : Int) :
    Except PyError RDFClassInst :=
  match run_query E M with
  | .error e => .error e
  | .ok results =>
    match pyIndex results n with
    | .error e => .error e
    | .ok uri => .ok ⟨M.cls, uri⟩

/-- Follows the spec's words for `at(index)`: apply
`withSlice(index, index + 1)` to the expression, execute the sliced
query via the endpoint, and return the single resulting handle, or fail
with the index error when the endpoint returns no row at that offset. -/
def at_spec (E : String → List String) (M : RDFClassManager) (n : Int) :
    Except PyError RDFClassInst :=
  match getitemQ M.query (PyKey.slice (some n) (some (n + 1)) none) with
  | .error e => .error e
  | .ok qs =>
    match strQ qs with
    | .error e => .error e
    | .ok ts =>
      match E ts with
      | [] => .error .IndexError
      | uri :: _ => .ok ⟨M.cls, uri⟩

/-- A small resource kind for the indexing scenarios. -/
def xK : RDFClassK := ⟨"http://x/T"⟩

/-- Its manager, wrapping the seeded base query. -/
def xM : RDFClassManager := managerInit xK

/-- The serialization of `xM`'s base query. -/
def xBase : String := "select ?resource where \x7b ?resource a <http://x/T> \x7d"

/-- An endpoint holding two resources, answering the base query with
both rows and the `limit 1` slice of it with the first row (consistent
SPARQL offset/limit behavior). -/
def c4E (t : String) : List String :=
  if t = xBase ++ " limit 1" then ["http://x/A"]
  else if t = xBase then ["http://x/A", "http://x/B"]
  else []

theorem take_one_cons (x : String) (l : List String) : (x :: l).take 1 = [x] := rfl

/-- C4 counterexample: for the negative index `-1` the code indexes the
full result list from the end and returns the *last* handle, while the
spec's `withSlice(-1, 0)` model produces a `limit 1` query whose single
row is the *first* resource — the two disagree, so the claimed
equivalence fails for negative indices. -/
theorem c4_counterexample :
    managerGetitemInt c4E xM (-1) = Except.ok ⟨xK, "http://x/B"⟩ ∧
    at_spec c4E xM (-1) = Except.ok ⟨xK, "http://x/A"⟩ := ⟨rfl, rfl⟩

/-- C4 amended: for every manager, endpoint and *non-negative* index
`n`, provided the endpoint answers the sliced query with the one-row
slice at offset `n` of its answer to the base query, integer indexing
equals the spec's slice-then-execute model (including failing with the
index error when the slice is empty); and the two `at(0)` scenarios
hold: an endpoint returning `["http://x/1"]` yields that handle, an
endpoint returning `[]` raises the index error. -/
theorem c4_at_equiv :
    (∀ (M : RDFClassManager) (E : String → List String) (n : Int) (t ts : String)
        (qs : SelectQuery), 0 ≤ n →
      strQ M.query = Except.ok t →
      getitemQ M.query (PyKey.slice (some n) (some (n + 1)) none) = Except.ok qs →
      strQ qs = Except.ok ts →
      E ts = ((E t).drop n.toNat).take 1 →
      managerGetitemInt E M n = at_spec E M n) ∧
    managerGetitemInt (fun _ => ["http://x/1"]) xM 0 = Except.ok ⟨xK, "http://x/1"⟩ ∧
    managerGetitemInt (fun _ => ([] : List String)) xM 0 = Except.error PyError.IndexError := by
  refine ⟨?_, rfl, rfl⟩
  intro M E n t ts qs hn hser hsl hts hE
  have hnneg : ¬ (n < 0) := by omega
  simp only [managerGetitemInt, at_spec, run_query, hser, hsl, hts, hE]
  by_cases hlt : n.toNat < (E t).length
  · have hdrop : (E t).drop n.toNat =
        (E t).get ⟨n.toNat, hlt⟩ :: (E t).drop (n.toNat + 1) := by
      rw [List.drop_eq_getElem_cons hlt]
      simp
    have hget : (E t).get? n.toNat = some ((E t).get ⟨n.toNat, hlt⟩) :=
      List.get?_eq_get hlt
    rw [hdrop, take_one_cons]
    simp only [pyIndex, if_neg hnneg, hget]
  · have hle : (E t).length ≤ n.toNat := Nat.le_of_not_lt hlt
    have hdrop : (E t).drop n.toNat = [] := List.drop_eq_nil_of_le hle
    have hget : (E t).get? n.toNat = none := List.get?_eq_none.mpr hle
    rw [hdrop]
    simp only [pyIndex, if_neg hnneg, hget, List.take_nil]

/-- C4 witness: the amended equivalence at index 0 on the `xK` manager
with a consistent one-row endpoint. -/
theorem c4_at_equiv_witness :
    managerGetitemInt (fun _ => ["http://x/1"]) xM 0 =
      at_spec (fun _ => ["http://x/1"]) xM 0 :=
  c4_at_equiv.1 xM (fun _ => ["http://x/1"]) 0 xBase (xBase ++ " limit 1")
    { xM.query with limit := some 1 } (by decide) rfl rfl rfl rfl

/-! ### The `__getattr__` pass-through (`RDFClassManager.__getattr__`) -/

/-- The attribute names relevant to the pass-through: the builder
methods that exist on `SelectQuery`, plus `order_by`, which the spec
lists as an operation but which no `SelectQuery` method defines (it is
only a `_q` key rendered by `__str__`). -/
inductive MethodName where
  | select
  | distinct
  | whereM
  | optionalM
  | order_by
  deriving DecidableEq

/-- A bound method of a `SelectQuery`: its required user-argument count
and the function applying it to an argument tuple. -/
structure BoundMethod where
  arity : Nat
  fn : List Term → Except PyError SelectQuery

/-- `getattr(self.query, name)`: resolve a builder method on the query,
or raise `AttributeError` when the name does not exist (as for
`order_by`). -/
def getattrQuery (q : SelectQuery) : MethodName → Except PyError BoundMethod
  | .select => .ok ⟨1, fun args =>
      match args with
      | [Term.str v] => .ok (selectQ q v)
      | _ => .error .TypeError⟩
  | .distinct => .ok ⟨0, fun _ => .ok (distinctQ q)⟩
  | .whereM => .ok ⟨3, fun args =>
      match args with
      | [s, p, o] => .ok (whereQ q s p o)
      | _ => .error .TypeError⟩
  | .optionalM => .ok ⟨3, fun args =>
      match args with
      | [s, p, o] => .ok (optionalQ q s p o)
      | _ => .error .TypeError⟩
  | .order_by => .error .AttributeError

/-- Calling a bound method on an argument tuple: Python raises
`TypeError` when the tuple does not match the method's arity. -/
def pyCall (bm : BoundMethod) (args : List Term) : Except PyError SelectQuery :=
  if args.length = bm.arity then bm.fn args else .error .TypeError

/-- `RDFClassManager.__getattr__`: Python calls it with the attribute
*name only* — the `*args, **kwargs` in its signature are never filled —
so it resolves the query method and immediately invokes it with zero
arguments, wrapping the result in a new manager. -/
def managerGetattr (M : RDFClassManager) (name : MethodName) :
    Except PyError RDFClassManager :=
  match getattrQuery M.query name with
  | .error e => .error e
  | .ok attr =>
    match pyCall attr [] with
    | .error e => .error e
    | .ok new_query => .ok ⟨M.cls, new_query⟩

/-- Applying call parentheses to an `RDFClassManager` value: the class
defines no `__call__`, so Python raises `TypeError`. -/
def callManager (_M : RDFClassManager) (_args : List Term) :
    Except PyError RDFClassManager :=
  .error .TypeError

/-- A method-call expression `M.name(args)` through the pass-through:
attribute access (which runs `__getattr__`) followed by applying the
call arguments to whatever the access returned. -/
def managerMethodCall (M : RDFClassManager) (name : MethodName) (args : List Term) :
    Except PyError RDFClassManager :=
  match managerGetattr M name with
  | .error e => .error e
  | .ok recv => callManager recv args

/-- C9: invoking a pass-through operation as a method call never returns
a manager.  Bare attribute access `M.distinct` does return a new manager
of the same kind wrapping the transformed expression, but the method
call `M.distinct()` applies call parentheses to that manager (which is
not callable) and raises `TypeError`; a pass-through method taking
arguments, like `M.select("?x")`, already raises `TypeError` during the
attribute access, because `__getattr__` calls `select` with zero
arguments; and `order_by`, the spec's other example, does not even exist
as a query method, so its lookup raises `AttributeError`. -/
theorem c9_passthrough_call_raises :
    managerGetattr (managerInit bandK) MethodName.distinct =
      Except.ok ⟨bandK, distinctQ (managerInit bandK).query⟩ ∧
    managerMethodCall (managerInit bandK) MethodName.distinct [] =
      Except.error PyError.TypeError ∧
    managerMethodCall (managerInit bandK) MethodName.select [Term.str "?x"] =
      Except.error PyError.TypeError ∧
    managerGetattr (managerInit bandK) MethodName.order_by =
      Except.error PyError.AttributeError := by
  exact ⟨rfl, rfl, rfl, rfl⟩

end Ontopy
